import Mathlib

/-!
Shallow embedding of the Bedrock Agent Proxy (src/bedrock_agent_proxy.py) in
Lean 4, together with theorems checking the natural-language specification of
the repository against the code.

The embedding keeps the source's names where Lean allows it.  Python strings
are Lean Strings; Python dicts used as registries are association lists with
dict-assignment (replace-or-append) semantics; Python exceptions raised inside
request handling are values of Except String; the opaque backend agent call is
a parameter producing the list of completion events; the per-request random
hex suffixes and the wall-clock timestamp are explicit parameters, computed
once before the relay starts, exactly as in the source.  Backend chunk bytes
are represented by their UTF-8 decoded text, since every property below
quantifies over decoded fragments.
-/

set_option autoImplicit false

namespace BedrockProxy

/-- A chat message as received in the request body: a role tag and a content
string (src lines 120-148 read both fields). -/
structure Message where
  role : String
  content : String
deriving DecidableEq, Repr

/-- One registered agent: the pair stored in the AGENTS dict (src lines 50-53). -/
structure AgentConfig where
  agent_id : String
  alias_id : String
deriving DecidableEq, Repr

/-- Python dict lookup d.get(k): first binding of the key, if any. -/
def lookupDict (d : List (String × AgentConfig)) (k : String) : Option AgentConfig :=
  (d.find? (fun p => p.1 == k)).map (fun p => p.2)

/-- Python dict assignment d[k] = v: replace the existing binding in place,
else append a new one (insertion order preserved, as in CPython dicts). -/
def dictInsert (d : List (String × AgentConfig)) (k : String) (v : AgentConfig) :
    List (String × AgentConfig) :=
  if d.any (fun p => p.1 == k) then
    d.map (fun p => if p.1 == k then (k, v) else p)
  else
    d ++ [(k, v)]

/-- os.environ.get k: first binding of the key in the environment list. -/
def envGet (env : List (String × String)) (k : String) : Option String :=
  (env.find? (fun p => p.1 == k)).map (fun p => p.2)

/-- Character class of the regex group in AGENT_([A-Z0-9_]+)_ID (src line 39). -/
def isAgentNameChar (c : Char) : Bool :=
  (decide ('A' ≤ c) && decide (c ≤ 'Z')) || (decide ('0' ≤ c) && decide (c ≤ '9')) || c == '_'

/-- Greedy regex backtracking for ([A-Z0-9_]+)_ID after the AGENT_ prefix:
the group is the longest nonempty run of name characters followed by the
literal _ID (re.match only requires a prefix match, so trailing characters
after the literal are ignored). -/
def greedyGroup (rest : List Char) : Option Nat :=
  let m := (rest.takeWhile isAgentNameChar).length
  (List.range m).reverse.findSome? (fun i =>
    let k := i + 1
    if (rest.drop k).take 3 = ['_', 'I', 'D'] then some k else none)

/-- re.match of AGENT_([A-Z0-9_]+)_ID against an environment key (src line 39):
returns the captured group when the key matches at position 0. -/
def matchAgentKey (key : String) : Option String :=
  let cs := key.toList
  if cs.take 6 = "AGENT_".toList then
    match greedyGroup (cs.drop 6) with
    | some k => some (String.mk ((cs.drop 6).take k))
    | none => none
  else none

/-- group(1).replace of underscores by hyphens (src line 44). -/
def hyphenate (s : String) : String :=
  String.mk (s.data.map (fun c => if c = '_' then '-' else c))

/-- The alias environment key AGENT_{group}_ALIAS_ID (src line 46). -/
def aliasKeyOf (g : String) : String :=
  "AGENT_" ++ g ++ "_ALIAS_ID"

/-- One iteration of the AGENTS-building loop (src lines 41-54): if the key
matches the agent pattern and the paired alias entry is present and truthy,
register the hyphenated name; otherwise leave the dict unchanged. -/
def processKey (env : List (String × String)) (agents : List (String × AgentConfig))
    (kv : String × String) : List (String × AgentConfig) :=
  match matchAgentKey kv.1 with
  | none => agents
  | some g =>
    match envGet env (aliasKeyOf g) with
    | none => agents
    | some aliasId =>
      if aliasId = "" then agents
      else dictInsert agents (hyphenate g) ⟨kv.2, aliasId⟩

/-- The AGENTS registry built once from the environment (src lines 38-54). -/
def buildAgents (env : List (String × String)) : List (String × AgentConfig) :=
  env.foldl (processKey env) []

/-- API_KEY = os.environ.get with its default (src line 32). -/
def apiKeyOf (env : List (String × String)) : String :=
  (envGet env "API_KEY").getD "bedrock-agent-proxy-key"

/-- Python str.lower, ASCII case folding. -/
def pyLower (s : String) : String :=
  String.mk (s.data.map Char.toLower)

/-- Python str.isspace membership for the characters str.split() splits on. -/
def pyIsSpace (c : Char) : Bool :=
  c == ' ' || c == '\t' || c == '\n' || c == '\r' || c == '\x0b' || c == '\x0c'

/-- Worker for str.split(): walk the characters accumulating the current
token (reversed); whitespace closes the token, and empty tokens are never
emitted. -/
def pyTokensAux : List Char → List Char → List String
  | [], cur => if cur = [] then [] else [String.mk cur.reverse]
  | c :: rest, cur =>
    if pyIsSpace c then
      (if cur = [] then [] else [String.mk cur.reverse]) ++ pyTokensAux rest []
    else pyTokensAux rest (c :: cur)

/-- Python str.split() with no argument: split on whitespace runs, dropping
empty pieces. -/
def pySplitWs (s : String) : List String :=
  pyTokensAux s.data []

/-- validate_api_key (src lines 64-93): skip entirely when the configured key
is falsy or case-insensitively none; otherwise require a two-part header whose
scheme is bearer (case-insensitive) and whose second part equals the key. -/
def validate_api_key (apiKey : String) (authHeader : Option String) : Bool :=
  if apiKey = "" ∨ pyLower apiKey = "none" then true
  else
    match authHeader with
    | none => false
    | some h =>
      if h = "" then false
      else
        match pySplitWs h with
        | [p0, p1] =>
          if pyLower p0 ≠ "bearer" then false
          else if p1 ≠ apiKey then false
          else true
        | _ => false

/-- The loop over reversed(messages) that finds the last user message
(src lines 122-124): first message with role user, its content; default
the empty string set at line 121. -/
def lastUserLoop : List Message → String
  | [] => ""
  | m :: rest => if m.role = "user" then m.content else lastUserLoop rest

/-- last_user_message after the reverse scan (src lines 121-124). -/
def lastUserContent (messages : List Message) : String :=
  lastUserLoop messages.reverse

/-- Lines 120-129 of the source: the anchor content plus the used-fallback
flag (the logged warning).  Python raises IndexError on messages[-1] when the
list is empty; the paired Bool is true exactly when the fallback branch ran. -/
def anchorStep (messages : List Message) : Except String (String × Bool) :=
  let lum := lastUserContent messages
  if lum = "" then
    match messages.getLast? with
    | none => Except.error "IndexError: list index out of range"
    | some m => Except.ok (m.content, true)
  else
    Except.ok (lum, false)

/-- The context-building loop over messages[:-1] (src lines 131-147): the
accumulated transcript string, seeded with the header line, and the
has_previous_messages flag. -/
def buildContext (messages : List Message) : String × Bool :=
  messages.dropLast.foldl
    (fun acc m =>
      if m.role = "system" then (acc.1 ++ "System instruction: " ++ m.content ++ "\n", true)
      else if m.role = "user" then (acc.1 ++ "User: " ++ m.content ++ "\n", true)
      else if m.role = "assistant" then (acc.1 ++ "Assistant: " ++ m.content ++ "\n", true)
      else acc)
    ("Previous conversation:\n", false)

/-- Lines 150-152 of the source: combine the transcript with the anchor. -/
def combineInput (messages : List Message) (anchor : String) : String :=
  if (buildContext messages).2 then
    (buildContext messages).1 ++ "\n\nCurrent message: " ++ anchor
  else anchor

/-- The whole context collapse (src lines 120-152): anchor selection, context
transcript, and their combination, plus the used-fallback flag. -/
def collapse (messages : List Message) : Except String (String × Bool) :=
  match anchorStep messages with
  | Except.error e => Except.error e
  | Except.ok (anchor, fb) => Except.ok (combineInput messages anchor, fb)

/-- A backend completion event: either an event carrying a chunk (its bytes
represented by their UTF-8 decoding) or any other event, which the loops at
src lines 197-199 and 253-255 skip. -/
inductive StreamEvent where
  | chunk (content : String)
  | control
deriving DecidableEq, Repr

/-- The delta object inside a streamed choice. -/
structure Delta where
  role : Option String
  content : Option String
deriving DecidableEq, Repr

/-- One choice of a streamed chunk frame. -/
structure ChunkChoice where
  index : Nat
  delta : Delta
  finish_reason : Option String
deriving DecidableEq, Repr

/-- One chat.completion.chunk frame. -/
structure ChatChunk where
  id : String
  object : String
  created : Nat
  model : String
  choices : List ChunkChoice
deriving DecidableEq, Repr

/-- One yielded item of the SSE generator: a data frame, or the literal
[DONE] sentinel (src line 235). -/
inductive SSEItem where
  | frame (c : ChatChunk)
  | done
deriving DecidableEq, Repr

/-- The initial role-announcement frame (src lines 179-193). -/
def roleFrame (rid : String) (created : Nat) (model : String) : ChatChunk :=
  { id := rid, object := "chat.completion.chunk", created := created, model := model,
    choices := [{ index := 0, delta := { role := some "assistant", content := none },
                  finish_reason := none }] }

/-- A content-delta frame (src lines 201-215). -/
def contentFrame (rid : String) (created : Nat) (model : String) (content : String) : ChatChunk :=
  { id := rid, object := "chat.completion.chunk", created := created, model := model,
    choices := [{ index := 0, delta := { role := none, content := some content },
                  finish_reason := none }] }

/-- The terminal frame with the finish reason (src lines 219-231). -/
def finishFrame (rid : String) (created : Nat) (model : String) : ChatChunk :=
  { id := rid, object := "chat.completion.chunk", created := created, model := model,
    choices := [{ index := 0, delta := { role := none, content := none },
                  finish_reason := some "stop" }] }

/-- The middle loop of generate_stream (src lines 197-216): for each event
carrying a chunk, decode it and yield a content frame unless the decoded
content is empty. -/
def streamBody (rid : String) (created : Nat) (model : String) :
    List StreamEvent → List SSEItem
  | [] => []
  | StreamEvent.chunk c :: rest =>
    (if c = "" then [] else [SSEItem.frame (contentFrame rid created model c)])
      ++ streamBody rid created model rest
  | StreamEvent.control :: rest => streamBody rid created model rest

/-- generate_stream (src lines 177-235): role frame, content frames, finish
frame, then the [DONE] sentinel. -/
def generate_stream (rid : String) (created : Nat) (model : String)
    (events : List StreamEvent) : List SSEItem :=
  SSEItem.frame (roleFrame rid created model) ::
    (streamBody rid created model events
      ++ [SSEItem.frame (finishFrame rid created model), SSEItem.done])

/-- The content carried by an event, when it carries a chunk. -/
def chunkContent : StreamEvent → Option String
  | StreamEvent.chunk c => some c
  | StreamEvent.control => none

/-- All decoded chunk contents of a completion, in backend order. -/
def decodedChunks (events : List StreamEvent) : List String :=
  events.filterMap chunkContent

/-- The non-streaming aggregation loop (src lines 252-255): concatenate every
decoded chunk. -/
def aggregateCompletion (events : List StreamEvent) : String :=
  events.foldl
    (fun acc e =>
      match e with
      | StreamEvent.chunk c => acc ++ c
      | StreamEvent.control => acc)
    ""

/-- The assistant message inside a finished choice. -/
structure ChatMessage where
  role : String
  content : String
deriving DecidableEq, Repr

/-- One choice of the aggregated response. -/
structure RespChoice where
  index : Nat
  message : ChatMessage
  finish_reason : String
deriving DecidableEq, Repr

/-- The usage block with its unavailable sentinels (src lines 273-277). -/
structure Usage where
  prompt_tokens : Int
  completion_tokens : Int
  total_tokens : Int
deriving DecidableEq, Repr

/-- The aggregated chat.completion response object. -/
structure ChatResponse where
  id : String
  object : String
  created : Nat
  model : String
  choices : List RespChoice
  usage : Usage
deriving DecidableEq, Repr

/-- The openai_response object built in non-streaming mode (src lines 258-278). -/
def aggregateResponse (rid : String) (created : Nat) (model : String)
    (completion : String) : ChatResponse :=
  { id := rid, object := "chat.completion", created := created, model := model,
    choices := [{ index := 0, message := { role := "assistant", content := completion },
                  finish_reason := "stop" }],
    usage := { prompt_tokens := -1, completion_tokens := -1, total_tokens := -1 } }

/-- The content field a stream item contributes to the client-visible text:
the delta content of its single choice, empty for the sentinel and for frames
whose delta has no content. -/
def itemContent : SSEItem → String
  | SSEItem.frame f => ((f.choices.head?.bind (fun ch => ch.delta.content)).getD "")
  | SSEItem.done => ""

/-- Concatenation of the content fields of all streamed frames. -/
def streamedContent (items : List SSEItem) : String :=
  items.foldl (fun acc it => acc ++ itemContent it) ""

/-- Whether a stream item is a frame announcing a role. -/
def hasRoleDelta : SSEItem → Bool
  | SSEItem.frame f => f.choices.any (fun ch => ch.delta.role.isSome)
  | SSEItem.done => false

/-- Whether a stream item is a frame carrying the stop finish reason. -/
def hasFinishStop : SSEItem → Bool
  | SSEItem.frame f => f.choices.any (fun ch => ch.finish_reason == some "stop")
  | SSEItem.done => false

/-- Whether a stream item is the [DONE] sentinel. -/
def isDoneItem : SSEItem → Bool
  | SSEItem.frame _ => false
  | SSEItem.done => true

/-- The payload sent to invoke_agent (src lines 158-164). -/
structure AgentRequest where
  agentId : String
  agentAliasId : String
  sessionId : String
  inputText : String
  enableTrace : Bool
deriving DecidableEq, Repr

/-- The request body of POST /api/v1/chat/completions (src lines 101-107 read
these fields), plus the Authorization header the handler never reads. -/
structure ChatRequest where
  messages : List Message
  model : Option String
  stream : Bool
  session_id : Option String
  authorization : Option String
deriving DecidableEq, Repr

/-- The successful result of chat_completions: a streaming body or one JSON
object. -/
inductive ProxyResult where
  | streamResp (items : List SSEItem)
  | jsonResp (resp : ChatResponse)
deriving DecidableEq, Repr

/-- Agent lookup with default fallback (src lines 110-115): AGENTS.get of the
model id, else AGENTS.get of the default agent. -/
def resolveAgent (agents : List (String × AgentConfig)) (defaultAgent : String)
    (modelId : String) : Option AgentConfig :=
  match lookupDict agents modelId with
  | some cfg => some cfg
  | none => lookupDict agents defaultAgent

/-- The error Python raises at src line 117 when both lookups miss. -/
def typeErrMsg : String := "TypeError: NoneType object is not subscriptable"

/-- The error Python raises at src line 128 on an empty message list. -/
def indexErrMsg : String := "IndexError: list index out of range"

/-- chat_completions (src lines 95-281), with the opaque backend call, the two
random hex suffixes and the timestamp as explicit parameters.  Follows the
source order: agent resolution, anchor selection, context build, session id,
invocation payload, backend call, response id and timestamp, then the
streaming or aggregate branch.  Raised exceptions are Except.error values. -/
def chat_completions (agents : List (String × AgentConfig)) (defaultAgent : String)
    (backend : AgentRequest → List StreamEvent) (sessionRand : String)
    (respRand : String) (now : Nat) (req : ChatRequest) :
    Except String (AgentRequest × ProxyResult) :=
  let model_id := req.model.getD defaultAgent
  match resolveAgent agents defaultAgent model_id with
  | none => Except.error typeErrMsg
  | some cfg =>
    match collapse req.messages with
    | Except.error e => Except.error e
    | Except.ok (full_input, _) =>
      let session_id := req.session_id.getD ("session-" ++ model_id ++ "-" ++ sessionRand)
      let agent_request : AgentRequest :=
        { agentId := cfg.agent_id, agentAliasId := cfg.alias_id, sessionId := session_id,
          inputText := full_input, enableTrace := false }
      let events := backend agent_request
      let response_id := "chatcmpl-" ++ model_id ++ "-" ++ respRand
      let created_time := now
      if req.stream then
        Except.ok (agent_request,
          ProxyResult.streamResp (generate_stream response_id created_time model_id events))
      else
        Except.ok (agent_request,
          ProxyResult.jsonResp
            (aggregateResponse response_id created_time model_id (aggregateCompletion events)))

/-- An HTTP-level outcome of the chat-completions route. -/
inductive HttpResponse where
  | streamOk (items : List SSEItem)
  | jsonOk (resp : ChatResponse)
  | errorResp (message : String) (status : Nat)
deriving DecidableEq, Repr

/-- Modelled from the spec: the exception handler of chat_completions.  The
source as given opens a try block at line 100 with no except clause under
src/, so the handler itself is missing from the provided source; spec section
7 (EmptyConversation, ConfigurationError, BackendInvocationError) states that
exceptions raised while serving a request surface as a request-level error
response, not a process crash.  We model that handler: any raised error
becomes an error response with a 5xx status. -/
def handleChatRequest (agents : List (String × AgentConfig)) (defaultAgent : String)
    (backend : AgentRequest → List StreamEvent) (sessionRand : String)
    (respRand : String) (now : Nat) (req : ChatRequest) : HttpResponse :=
  match chat_completions agents defaultAgent backend sessionRand respRand now req with
  | Except.ok (_, ProxyResult.streamResp items) => HttpResponse.streamOk items
  | Except.ok (_, ProxyResult.jsonResp resp) => HttpResponse.jsonOk resp
  | Except.error e => HttpResponse.errorResp e 500

/-- One entry of the models listing (src lines 303-308). -/
structure ModelEntry where
  id : String
  object : String
  created : Nat
  owned_by : String
deriving DecidableEq, Repr

/-- The models listing body (src lines 310-313). -/
structure ModelsList where
  object : String
  data : List ModelEntry
deriving DecidableEq, Repr

/-- The structured error body returned on auth failure (src lines 290-297). -/
structure ApiError where
  message : String
  type : String
  param : Option String
  code : String
deriving DecidableEq, Repr

/-- Result of GET /api/v1/models: the listing, or the 401 error. -/
inductive ModelsResult where
  | ok (body : ModelsList)
  | unauthorized (err : ApiError) (status : Nat)
deriving DecidableEq, Repr

/-- The invalid-api-key error body (src lines 291-296). -/
def invalidApiKeyError : ApiError :=
  { message := "Invalid API key", type := "invalid_request_error", param := none,
    code := "invalid_api_key" }

/-- The models payload built from the registry (src lines 299-313). -/
def modelsPayload (agents : List (String × AgentConfig)) : ModelsList :=
  { object := "list",
    data := agents.map (fun p =>
      { id := p.1, object := "model", created := 1677610602, owned_by := "aws-bedrock" }) }

/-- list_models (src lines 283-315): gate on validate_api_key, then list every
registered agent. -/
def list_models (apiKey : String) (authHeader : Option String)
    (agents : List (String × AgentConfig)) : ModelsResult :=
  if validate_api_key apiKey authHeader then ModelsResult.ok (modelsPayload agents)
  else ModelsResult.unauthorized invalidApiKeyError 401

/-- What claim C8 asserts of every registered entry: it stems from a matched
AGENT_..._ID configuration key, its name is the hyphenated group, its agent id
is that key's value, and its alias id is the present, truthy value of the
paired alias key. -/
def RegEntryOk (env : List (String × String)) (p : String × AgentConfig) : Prop :=
  ∃ g key v, (key, v) ∈ env ∧ matchAgentKey key = some g ∧ p.1 = hyphenate g ∧
    p.2.agent_id = v ∧ ∃ a, envGet env (aliasKeyOf g) = some a ∧ a ≠ "" ∧ p.2.alias_id = a

/-- The anchor exactly as claim C1 words it: the content of the last message
with role user when such a message exists, otherwise the content of the last
message in the list. -/
def claimAnchor (messages : List Message) : Option String :=
  match messages.reverse.find? (fun m => m.role == "user") with
  | some m => some m.content
  | none => messages.getLast?.map Message.content

/-- The anchor as the amended claim words it: the content of the last message
with role user when that content is non-empty; otherwise the content of the
last message in the list, with the fallback marked. -/
def amendedAnchor (messages : List Message) : Option (String × Bool) :=
  match messages.reverse.find? (fun m => m.role == "user") with
  | some m =>
    if m.content = "" then messages.getLast?.map (fun l2 => (l2.content, true))
    else some (m.content, false)
  | none => messages.getLast?.map (fun l2 => (l2.content, true))

/-! Helper lemmas shared by the claim theorems. -/

/-- A string append is empty exactly when both sides are. -/
theorem str_append_eq_empty_iff (s t : String) : s ++ t = "" ↔ s = "" ∧ t = "" := by
  constructor
  · intro h
    have h2 : s.data ++ t.data = ([] : List Char) := by
      have h3 := congrArg String.data h
      simpa [String.data_append] using h3
    rcases List.append_eq_nil.mp h2 with ⟨h3, h4⟩
    exact ⟨String.ext h3, String.ext h4⟩
  · rintro ⟨rfl, rfl⟩
    rfl

/-- The reverse scan loop agrees with find? over the same list. -/
theorem lastUserLoop_eq_find (l : List Message) :
    lastUserLoop l = (((l.find? (fun m => m.role == "user")).map Message.content).getD "") := by
  induction l with
  | nil => rfl
  | cons m rest ih =>
    by_cases hm : m.role = "user"
    · simp [lastUserLoop, hm, List.find?]
    · simp only [lastUserLoop, if_neg hm, ih, List.find?]
      have : (m.role == "user") = false := beq_false_of_ne hm
      rw [this]

/-- The combined input text is empty exactly when the anchor is empty and no
earlier message has a recognized role. -/
theorem combineInput_eq_empty_iff (messages : List Message) (a : String) :
    combineInput messages a = "" ↔ a = "" ∧ (buildContext messages).2 = false := by
  cases hbc : (buildContext messages).2 with
  | false => simp [combineInput, hbc]
  | true =>
    simp only [combineInput, hbc, if_pos]
    constructor
    · intro h
      rcases (str_append_eq_empty_iff _ _).mp h with ⟨h1, h2⟩
      rcases (str_append_eq_empty_iff _ _).mp h1 with ⟨h3, h4⟩
      exact absurd h4 (by decide)
    · rintro ⟨rfl, h2⟩
      cases h2

/-- Claim C1, amended.  For every non-empty message list the collapse
succeeds; its anchor is the content of the last role-user message when that
content is non-empty, and otherwise the content of the last message in the
list with the fallback marked; and the resulting input text is empty exactly
when the anchor content is empty and no earlier message has a recognized
role. -/
theorem c1_collapse_anchor (messages : List Message) (h : messages ≠ []) :
    ∃ a fb, amendedAnchor messages = some (a, fb) ∧
      anchorStep messages = Except.ok (a, fb) ∧
      collapse messages = Except.ok (combineInput messages a, fb) ∧
      (combineInput messages a = "" ↔ a = "" ∧ (buildContext messages).2 = false) := by
  obtain ⟨last, hlast⟩ : ∃ m, messages.getLast? = some m :=
    Option.isSome_iff_exists.mp (List.getLast?_isSome.mpr h)
  have hloop := lastUserLoop_eq_find messages.reverse
  cases hfind : messages.reverse.find? (fun m => m.role == "user") with
  | none =>
    have hlum : lastUserContent messages = "" := by
      rw [lastUserContent, hloop, hfind]; rfl
    refine ⟨last.content, true, ?_, ?_, ?_, combineInput_eq_empty_iff messages last.content⟩
    · simp [amendedAnchor, hfind, hlast]
    · simp [anchorStep, hlum, hlast]
    · simp [collapse, anchorStep, hlum, hlast]
  | some m =>
    by_cases hc : m.content = ""
    · have hlum : lastUserContent messages = "" := by
        rw [lastUserContent, hloop, hfind]; simpa using hc
      refine ⟨last.content, true, ?_, ?_, ?_, combineInput_eq_empty_iff messages last.content⟩
      · simp [amendedAnchor, hfind, hc, hlast]
      · simp [anchorStep, hlum, hlast]
      · simp [collapse, anchorStep, hlum, hlast]
    · have hlum : lastUserContent messages = m.content := by
        rw [lastUserContent, hloop, hfind]; rfl
      refine ⟨m.content, false, ?_, ?_, ?_, combineInput_eq_empty_iff messages m.content⟩
      · simp [amendedAnchor, hfind, hc]
      · simp [anchorStep, hlum, hc]
      · simp [collapse, anchorStep, hlum, hc]

/-- Witness for c1_collapse_anchor at the one-message list of the spec
scenario. -/
theorem c1_collapse_anchor_witness :
    ∃ a fb, amendedAnchor [⟨"user", "Hello"⟩] = some (a, fb) ∧
      anchorStep [⟨"user", "Hello"⟩] = Except.ok (a, fb) ∧
      collapse [⟨"user", "Hello"⟩] = Except.ok (combineInput [⟨"user", "Hello"⟩] a, fb) ∧
      (combineInput [⟨"user", "Hello"⟩] a = "" ↔
        a = "" ∧ (buildContext [⟨"user", "Hello"⟩]).2 = false) :=
  c1_collapse_anchor [⟨"user", "Hello"⟩] (by decide)

/-- Counterexample to claim C1 as stated: in the list with a user message of
empty content followed by an assistant message, a role-user message exists
and its content is the empty string, yet the code anchors on the assistant
message content instead. -/
theorem c1_counterexample :
    claimAnchor [⟨"user", ""⟩, ⟨"assistant", "A"⟩] = some "" ∧
      anchorStep [⟨"user", ""⟩, ⟨"assistant", "A"⟩] = Except.ok ("A", true) ∧
      ("A" : String) ≠ "" :=
  ⟨rfl, rfl, by decide⟩

/-- Claim C4, amended: the scenario input collapses to the transcript with
its header line, three newlines, then the current-message tag and anchor. -/
theorem c4_scenario_input :
    collapse [⟨"system", "Be terse"⟩, ⟨"user", "Hi"⟩] =
      Except.ok ("Previous conversation:\nSystem instruction: Be terse\n\n\nCurrent message: Hi",
        false) :=
  rfl

/-- Counterexample to claim C4 as stated: the collapsed text carries the
Previous-conversation header line, so it differs from the string the claim
gives. -/
theorem c4_counterexample :
    collapse [⟨"system", "Be terse"⟩, ⟨"user", "Hi"⟩] =
      Except.ok ("Previous conversation:\nSystem instruction: Be terse\n\n\nCurrent message: Hi",
        false) ∧
      ("Previous conversation:\nSystem instruction: Be terse\n\n\nCurrent message: Hi" : String) ≠
        "System instruction: Be terse\n\n\nCurrent message: Hi" :=
  ⟨rfl, by decide⟩

/-- The middle loop yields exactly one content frame per non-empty decoded
chunk, in backend order. -/
theorem streamBody_eq_filter (rid : String) (created : Nat) (model : String)
    (events : List StreamEvent) :
    streamBody rid created model events =
      ((decodedChunks events).filter (fun s => s != "")).map
        (fun s => SSEItem.frame (contentFrame rid created model s)) := by
  induction events with
  | nil => rfl
  | cons e rest ih =>
    cases e with
    | chunk c =>
      by_cases hc : c = ""
      · simp [streamBody, hc, decodedChunks, chunkContent, List.filterMap_cons, ih]
      · simp [streamBody, hc, decodedChunks, chunkContent, List.filterMap_cons, ih]
    | control => simp [streamBody, decodedChunks, chunkContent, List.filterMap_cons, ih]

/-- A predicate false on every content frame counts zero over the mapped
content frames. -/
theorem countP_contentFrames_zero (rid : String) (created : Nat) (model : String)
    (p : SSEItem → Bool) (hp : ∀ s, p (SSEItem.frame (contentFrame rid created model s)) = false)
    (l : List String) :
    (l.map (fun s => SSEItem.frame (contentFrame rid created model s))).countP p = 0 := by
  rw [List.countP_map]
  exact List.countP_eq_zero.mpr (fun s _ => by simp [Function.comp, hp s])

/-- Claim C2.  The streaming output is exactly: the role frame, one content
frame per non-empty decoded fragment in backend order, the finish frame, and
the [DONE] sentinel; the role frame, the finish frame and the sentinel each
occur exactly once, and the sentinel is last. -/
theorem c2_stream_shape (rid : String) (created : Nat) (model : String)
    (events : List StreamEvent) :
    generate_stream rid created model events =
      SSEItem.frame (roleFrame rid created model) ::
        (((decodedChunks events).filter (fun s => s != "")).map
            (fun s => SSEItem.frame (contentFrame rid created model s))
          ++ [SSEItem.frame (finishFrame rid created model), SSEItem.done]) ∧
    (generate_stream rid created model events).countP hasRoleDelta = 1 ∧
    (generate_stream rid created model events).countP hasFinishStop = 1 ∧
    (generate_stream rid created model events).countP isDoneItem = 1 ∧
    (generate_stream rid created model events).getLast? = some SSEItem.done := by
  have hbody := streamBody_eq_filter rid created model events
  refine ⟨by rw [generate_stream, hbody], ?_, ?_, ?_, ?_⟩
  · rw [generate_stream, hbody]
    rw [List.countP_cons, List.countP_append]
    rw [countP_contentFrames_zero rid created model hasRoleDelta
      (fun s => by simp [hasRoleDelta, contentFrame])]
    simp [hasRoleDelta, roleFrame, finishFrame, List.countP_cons]
  · rw [generate_stream, hbody]
    rw [List.countP_cons, List.countP_append]
    rw [countP_contentFrames_zero rid created model hasFinishStop
      (fun s => by simp [hasFinishStop, contentFrame])]
    simp [hasFinishStop, roleFrame, finishFrame, List.countP_cons]
  · rw [generate_stream, hbody]
    rw [List.countP_cons, List.countP_append]
    rw [countP_contentFrames_zero rid created model isDoneItem
      (fun s => by simp [isDoneItem])]
    simp [isDoneItem, List.countP_cons]
  · have hsplit : generate_stream rid created model events =
        (SSEItem.frame (roleFrame rid created model) ::
          (streamBody rid created model events
            ++ [SSEItem.frame (finishFrame rid created model)])) ++ [SSEItem.done] := by
      simp [generate_stream]
    rw [hsplit]
    exact List.getLast?_concat _

/-- Folding the streamed content over the middle loop reproduces the
aggregation loop, from any accumulator. -/
theorem streamBody_foldl_content (rid : String) (created : Nat) (model : String)
    (events : List StreamEvent) :
    ∀ acc : String,
      (streamBody rid created model events).foldl (fun a it => a ++ itemContent it) acc =
        events.foldl
          (fun a e =>
            match e with
            | StreamEvent.chunk c => a ++ c
            | StreamEvent.control => a)
          acc := by
  induction events with
  | nil => intro acc; rfl
  | cons e rest ih =>
    intro acc
    cases e with
    | chunk c =>
      by_cases hc : c = ""
      · subst hc
        have h1 : streamBody rid created model (StreamEvent.chunk "" :: rest) =
            streamBody rid created model rest := by simp [streamBody]
        rw [h1, ih acc, List.foldl_cons]
        simp [String.append_empty]
      · simp only [streamBody, if_neg hc, List.singleton_append, List.foldl_cons]
        rw [ih]
        simp [itemContent, contentFrame]
    | control =>
      simp only [streamBody, List.foldl_cons]
      rw [ih]

/-- Claim C3.  The concatenation of the content fields of all streamed frames
equals the assistant message content the aggregate mode produces from the
same backend fragment sequence. -/
theorem c3_cross_mode (rid : String) (created : Nat) (model : String)
    (events : List StreamEvent) :
    streamedContent (generate_stream rid created model events) = aggregateCompletion events ∧
    (aggregateResponse rid created model (aggregateCompletion events)).choices.map
        (fun ch => ch.message.content) = [aggregateCompletion events] := by
  constructor
  · rw [streamedContent, generate_stream]
    rw [List.foldl_cons, List.foldl_append]
    rw [streamBody_foldl_content]
    have hrole : ("" ++ itemContent (SSEItem.frame (roleFrame rid created model))) = "" := rfl
    rw [hrole]
    have hfin : ∀ x : String,
        List.foldl (fun a it => a ++ itemContent it) x
          [SSEItem.frame (finishFrame rid created model), SSEItem.done] = x := by
      intro x
      simp [itemContent, finishFrame, String.append_empty]
    rw [hfin]
    rfl
  · rfl

/-- Every item of the middle loop is a content frame of the same request. -/
theorem mem_streamBody (rid : String) (created : Nat) (model : String)
    (events : List StreamEvent) (it : SSEItem)
    (h : it ∈ streamBody rid created model events) :
    ∃ s, it = SSEItem.frame (contentFrame rid created model s) := by
  induction events with
  | nil => cases h
  | cons e rest ih =>
    cases e with
    | chunk c =>
      by_cases hc : c = ""
      · rw [streamBody, if_pos hc, List.nil_append] at h
        exact ih h
      · rw [streamBody, if_neg hc, List.singleton_append] at h
        rcases List.mem_cons.mp h with h1 | h1
        · exact ⟨c, h1⟩
        · exact ih h1
    | control => exact ih h

/-- Claim C7.  Every frame of one streamed response carries the response id,
timestamp and model that were fixed before the relay began. -/
theorem c7_frame_fields (rid : String) (created : Nat) (model : String)
    (events : List StreamEvent) (f : ChatChunk)
    (h : SSEItem.frame f ∈ generate_stream rid created model events) :
    f.id = rid ∧ f.created = created ∧ f.model = model := by
  rw [generate_stream] at h
  rcases List.mem_cons.mp h with h1 | h1
  · have hf : f = roleFrame rid created model := by
      injection h1
    subst hf
    exact ⟨rfl, rfl, rfl⟩
  · rcases List.mem_append.mp h1 with h2 | h2
    · obtain ⟨s, hs⟩ := mem_streamBody rid created model events _ h2
      have hf : f = contentFrame rid created model s := by
        injection hs
      subst hf
      exact ⟨rfl, rfl, rfl⟩
    · rcases List.mem_cons.mp h2 with h3 | h3
      · have hf : f = finishFrame rid created model := by
          injection h3
        subst hf
        exact ⟨rfl, rfl, rfl⟩
      · rcases List.mem_cons.mp h3 with h4 | h4
        · cases h4
        · cases h4

/-- Witness for c7_frame_fields: the role frame of a concrete stream carries
the shared fields. -/
theorem c7_frame_fields_witness :
    (roleFrame "chatcmpl-w" 3 "mw").id = "chatcmpl-w" ∧
      (roleFrame "chatcmpl-w" 3 "mw").created = 3 ∧
      (roleFrame "chatcmpl-w" 3 "mw").model = "mw" :=
  c7_frame_fields "chatcmpl-w" 3 "mw" [StreamEvent.chunk "Hi"]
    (roleFrame "chatcmpl-w" 3 "mw") (by decide)

/-- Claim C6.  An unregistered model id resolves to the same identity as the
default id does; and when resolution misses entirely (the default itself is
unregistered), chat_completions fails for that request with a request-level
error response. -/
theorem c6_resolve_default :
    (∀ (agents : List (String × AgentConfig)) (d m : String),
        lookupDict agents m = none → resolveAgent agents d m = resolveAgent agents d d)
    ∧ (∀ (agents : List (String × AgentConfig)) (d : String)
        (backend : AgentRequest → List StreamEvent) (sr rr : String) (now : Nat)
        (req : ChatRequest),
        resolveAgent agents d (req.model.getD d) = none →
          chat_completions agents d backend sr rr now req = Except.error typeErrMsg ∧
          handleChatRequest agents d backend sr rr now req =
            HttpResponse.errorResp typeErrMsg 500) := by
  constructor
  · intro agents d m hm
    unfold resolveAgent
    rw [hm]
    cases hd : lookupDict agents d <;> simp [hd]
  · intro agents d backend sr rr now req hres
    constructor
    · simp [chat_completions, hres]
    · simp [handleChatRequest, chat_completions, hres]

/-- Witness for c6_resolve_default on the empty registry: the unknown model
resolves like the default, and the request gets an error response. -/
theorem c6_resolve_default_witness :
    resolveAgent [] "DEFAULT" "unknown-model" = resolveAgent [] "DEFAULT" "DEFAULT" ∧
      chat_completions [] "DEFAULT" (fun _ => []) "r1" "r2" 0
        { messages := [⟨"user", "Hi"⟩], model := some "unknown-model", stream := false,
          session_id := some "s", authorization := none } = Except.error typeErrMsg ∧
      handleChatRequest [] "DEFAULT" (fun _ => []) "r1" "r2" 0
        { messages := [⟨"user", "Hi"⟩], model := some "unknown-model", stream := false,
          session_id := some "s", authorization := none } =
        HttpResponse.errorResp typeErrMsg 500 :=
  ⟨c6_resolve_default.1 [] "DEFAULT" "unknown-model" rfl,
    (c6_resolve_default.2 [] "DEFAULT" (fun _ => []) "r1" "r2" 0
      { messages := [⟨"user", "Hi"⟩], model := some "unknown-model", stream := false,
        session_id := some "s", authorization := none } rfl).1,
    (c6_resolve_default.2 [] "DEFAULT" (fun _ => []) "r1" "r2" 0
      { messages := [⟨"user", "Hi"⟩], model := some "unknown-model", stream := false,
        session_id := some "s", authorization := none } rfl).2⟩

/-- Claim C5, amended.  An empty message list makes chat_completions raise the
indexing error, which the modelled handler turns into an explicit
request-level error response rather than an unhandled crash. -/
theorem c5_empty_rejected (agents : List (String × AgentConfig)) (d : String)
    (backend : AgentRequest → List StreamEvent) (sr rr : String) (now : Nat)
    (req : ChatRequest) (hempty : req.messages = [])
    (hres : resolveAgent agents d (req.model.getD d) ≠ none) :
    chat_completions agents d backend sr rr now req = Except.error indexErrMsg ∧
      handleChatRequest agents d backend sr rr now req =
        HttpResponse.errorResp indexErrMsg 500 := by
  obtain ⟨cfg, hcfg⟩ := Option.ne_none_iff_exists.mp hres
  have hcol : collapse req.messages = Except.error indexErrMsg := by
    rw [hempty]; rfl
  constructor
  · simp [chat_completions, ← hcfg, hcol]
  · simp [handleChatRequest, chat_completions, ← hcfg, hcol]

/-- Witness for c5_empty_rejected at a concrete registry and request. -/
theorem c5_empty_rejected_witness :
    chat_completions [("m", ⟨"aid", "alid"⟩)] "m" (fun _ => []) "r1" "r2" 0
        { messages := [], model := none, stream := false, session_id := some "s",
          authorization := none } = Except.error indexErrMsg ∧
      handleChatRequest [("m", ⟨"aid", "alid"⟩)] "m" (fun _ => []) "r1" "r2" 0
        { messages := [], model := none, stream := false, session_id := some "s",
          authorization := none } = HttpResponse.errorResp indexErrMsg 500 :=
  c5_empty_rejected [("m", ⟨"aid", "alid"⟩)] "m" (fun _ => []) "r1" "r2" 0
    { messages := [], model := none, stream := false, session_id := some "s",
      authorization := none } rfl (by decide)

/-- Counterexample to claim C5 as stated: a request whose single message has
no extractable content (an assistant message with empty content) is not
rejected with a request-level error; chat_completions succeeds and sends the
backend an empty input text. -/
theorem c5_counterexample :
    chat_completions [("m", ⟨"aid", "alid"⟩)] "m" (fun _ => []) "r1" "r2" 7
        { messages := [⟨"assistant", ""⟩], model := none, stream := false,
          session_id := some "s", authorization := none } =
      Except.ok
        ({ agentId := "aid", agentAliasId := "alid", sessionId := "s", inputText := "",
           enableTrace := false },
          ProxyResult.jsonResp
            { id := "chatcmpl-m-r2", object := "chat.completion", created := 7, model := "m",
              choices := [{ index := 0,
                            message := { role := "assistant", content := "" },
                            finish_reason := "stop" }],
              usage := { prompt_tokens := -1, completion_tokens := -1,
                         total_tokens := -1 } }) :=
  rfl

/-- Claim C10.  chat_completions never reads the Authorization header: two
requests identical except for that header produce the same backend invocation
payload and the same response, both at the Except level and after the
handler. -/
theorem c10_auth_ignored (agents : List (String × AgentConfig)) (d : String)
    (backend : AgentRequest → List StreamEvent) (sr rr : String) (now : Nat)
    (msgs : List Message) (mo : Option String) (st : Bool) (sid : Option String)
    (h1 h2 : Option String) :
    chat_completions agents d backend sr rr now
        { messages := msgs, model := mo, stream := st, session_id := sid,
          authorization := h1 } =
      chat_completions agents d backend sr rr now
        { messages := msgs, model := mo, stream := st, session_id := sid,
          authorization := h2 } ∧
    handleChatRequest agents d backend sr rr now
        { messages := msgs, model := mo, stream := st, session_id := sid,
          authorization := h1 } =
      handleChatRequest agents d backend sr rr now
        { messages := msgs, model := mo, stream := st, session_id := sid,
          authorization := h2 } :=
  ⟨rfl, rfl⟩

/-- Membership in a dict assignment: the new binding or an old one. -/
theorem mem_dictInsert (d : List (String × AgentConfig)) (k : String) (v : AgentConfig)
    (p : String × AgentConfig) (h : p ∈ dictInsert d k v) : p = (k, v) ∨ p ∈ d := by
  unfold dictInsert at h
  by_cases hk : d.any (fun q => q.1 == k)
  · rw [if_pos hk] at h
    rcases List.mem_map.mp h with ⟨q, hq, hpq⟩
    by_cases hqk : (q.1 == k) = true
    · rw [if_pos hqk] at hpq
      exact Or.inl hpq.symm
    · rw [if_neg hqk] at hpq
      exact Or.inr (hpq ▸ hq)
  · rw [if_neg hk] at h
    rcases List.mem_append.mp h with h1 | h1
    · exact Or.inr h1
    · exact Or.inl (by simpa using h1)

/-- The building-loop step drops a candidate whose key does not match. -/
theorem processKey_no_match (env : List (String × String))
    (acc : List (String × AgentConfig)) (kv : String × String)
    (hk : matchAgentKey kv.1 = none) : processKey env acc kv = acc := by
  simp [processKey, hk]

/-- The building-loop step drops a candidate whose alias entry is missing. -/
theorem processKey_no_alias (env : List (String × String))
    (acc : List (String × AgentConfig)) (kv : String × String) (g : String)
    (hk : matchAgentKey kv.1 = some g) (ha : envGet env (aliasKeyOf g) = none) :
    processKey env acc kv = acc := by
  simp [processKey, hk, ha]

/-- The building-loop step drops a candidate whose alias entry is empty. -/
theorem processKey_empty_alias (env : List (String × String))
    (acc : List (String × AgentConfig)) (kv : String × String) (g : String)
    (hk : matchAgentKey kv.1 = some g) (ha : envGet env (aliasKeyOf g) = some "") :
    processKey env acc kv = acc := by
  simp [processKey, hk, ha]

/-- The building-loop step registers a candidate with a truthy alias. -/
theorem processKey_insert (env : List (String × String))
    (acc : List (String × AgentConfig)) (kv : String × String) (g a : String)
    (hk : matchAgentKey kv.1 = some g) (ha : envGet env (aliasKeyOf g) = some a)
    (hae : a ≠ "") :
    processKey env acc kv = dictInsert acc (hyphenate g) ⟨kv.2, a⟩ := by
  simp [processKey, hk, ha, hae]

/-- Every entry the registry-building fold accumulates satisfies the claim-C8
characterization, provided the processed keys come from the environment. -/
theorem foldl_processKey_ok (env : List (String × String)) :
    ∀ l : List (String × String), (∀ kv, kv ∈ l → kv ∈ env) →
      ∀ acc : List (String × AgentConfig), (∀ p, p ∈ acc → RegEntryOk env p) →
        ∀ p, p ∈ l.foldl (processKey env) acc → RegEntryOk env p := by
  intro l
  induction l with
  | nil => intro _ acc hacc p hp; exact hacc p hp
  | cons kv rest ih =>
    intro hsub acc hacc p hp
    rw [List.foldl_cons] at hp
    refine ih (fun x hx => hsub x (List.mem_cons_of_mem _ hx)) (processKey env acc kv) ?_ p hp
    intro q hq
    cases hk : matchAgentKey kv.1 with
    | none =>
      rw [processKey_no_match env acc kv hk] at hq
      exact hacc q hq
    | some g =>
      cases ha : envGet env (aliasKeyOf g) with
      | none =>
        rw [processKey_no_alias env acc kv g hk ha] at hq
        exact hacc q hq
      | some aliasId =>
        by_cases hae : aliasId = ""
        · subst hae
          rw [processKey_empty_alias env acc kv g hk ha] at hq
          exact hacc q hq
        · rw [processKey_insert env acc kv g aliasId hk ha hae] at hq
          rcases mem_dictInsert _ _ _ _ hq with h1 | h1
          · subst h1
            exact ⟨g, kv.1, kv.2, hsub kv (List.mem_cons_self _ _), hk, rfl, rfl,
              aliasId, ha, hae, rfl⟩
          · exact hacc q h1

/-- Claim C8.  Every registered entry comes from a matched configuration key
whose paired alias entry is present and truthy, under the hyphenated name and
with that key's value as agent id; and a candidate key whose pattern does not
match, or whose alias entry is missing or empty, leaves the registry
unchanged. -/
theorem c8_registry_build :
    (∀ (env : List (String × String)) (name : String) (cfg : AgentConfig),
        lookupDict (buildAgents env) name = some cfg →
          ∃ g key v, (key, v) ∈ env ∧ matchAgentKey key = some g ∧ name = hyphenate g ∧
            cfg.agent_id = v ∧ ∃ a, envGet env (aliasKeyOf g) = some a ∧ a ≠ "" ∧
              cfg.alias_id = a)
    ∧ (∀ (env : List (String × String)) (acc : List (String × AgentConfig)) (key v : String),
        matchAgentKey key = none → processKey env acc (key, v) = acc)
    ∧ (∀ (env : List (String × String)) (acc : List (String × AgentConfig)) (key v g : String),
        matchAgentKey key = some g → envGet env (aliasKeyOf g) = none →
          processKey env acc (key, v) = acc)
    ∧ (∀ (env : List (String × String)) (acc : List (String × AgentConfig)) (key v g : String),
        matchAgentKey key = some g → envGet env (aliasKeyOf g) = some "" →
          processKey env acc (key, v) = acc) := by
  refine ⟨?_, ?_, ?_, ?_⟩
  · intro env name cfg hl
    unfold lookupDict at hl
    cases hf : (buildAgents env).find? (fun p => p.1 == name) with
    | none => rw [hf] at hl; cases hl
    | some p =>
      rw [hf] at hl
      have hp : p ∈ buildAgents env := List.mem_of_find?_eq_some hf
      have hname : p.1 = name := by simpa using List.find?_some hf
      have hcfg : p.2 = cfg := by injection hl
      obtain ⟨g, key, v, hkv, hmk, hn, hid, a, ha, hae, hal⟩ :=
        foldl_processKey_ok env env (fun x hx => hx) []
          (fun q hq => absurd hq (List.not_mem_nil q)) p hp
      exact ⟨g, key, v, hkv, hmk, by rw [← hname, hn],
        by rw [← hcfg]; exact hid, a, ha, hae, by rw [← hcfg]; exact hal⟩
  · intro env acc key v hk
    simp [processKey, hk]
  · intro env acc key v g hk ha
    simp [processKey, hk, ha]
  · intro env acc key v g hk ha
    simp [processKey, hk, ha]

/-- Witness for c8_registry_build on a two-entry environment: the registered
FOO agent traces back to the AGENT_FOO_ID and AGENT_FOO_ALIAS_ID entries. -/
theorem c8_registry_build_witness :
    ∃ g key v,
      (key, v) ∈ [("AGENT_FOO_ID", "id1"), ("AGENT_FOO_ALIAS_ID", "al1")] ∧
      matchAgentKey key = some g ∧ "FOO" = hyphenate g ∧
      (⟨"id1", "al1"⟩ : AgentConfig).agent_id = v ∧
      ∃ a, envGet [("AGENT_FOO_ID", "id1"), ("AGENT_FOO_ALIAS_ID", "al1")] (aliasKeyOf g) =
          some a ∧ a ≠ "" ∧ (⟨"id1", "al1"⟩ : AgentConfig).alias_id = a :=
  c8_registry_build.1 [("AGENT_FOO_ID", "id1"), ("AGENT_FOO_ALIAS_ID", "al1")] "FOO"
    ⟨"id1", "al1"⟩ (by decide)

/-- With validation not skipped, a header that does not split into exactly two
parts fails validation. -/
theorem validate_false_of_not_pair (apiKey h : String)
    (hskip : ¬(apiKey = "" ∨ pyLower apiKey = "none"))
    (hno : ∀ p0 p1, pySplitWs h ≠ [p0, p1]) :
    validate_api_key apiKey (some h) = false := by
  simp only [validate_api_key, if_neg hskip]
  simp

/-- With validation not skipped, a two-part header with a non-bearer scheme or
a mismatched key fails validation. -/
theorem validate_false_of_bad_pair (apiKey h p0 p1 : String)
    (hskip : ¬(apiKey = "" ∨ pyLower apiKey = "none"))
    (hsp : pySplitWs h = [p0, p1])
    (hrej : pyLower p0 ≠ "bearer" ∨ p1 ≠ apiKey) :
    validate_api_key apiKey (some h) = false := by
  simp only [validate_api_key, if_neg hskip]
  by_cases hh : h = ""
  · have h0 : pySplitWs "" = [] := rfl
    rw [hh, h0] at hsp
    simp at hsp
  · rw [if_neg hh, hsp]
    rcases hrej with hr | hr
    · simp [hr]
    · by_cases hb : pyLower p0 ≠ "bearer"
      · simp [hb]
      · simp [hb, hr]

/-- Claim C9, amended.  The models endpoint skips the bearer check exactly
when the configured key is the empty string or case-insensitively equals
none (an unset API_KEY environment variable defaults to a real key and so
enforces validation); otherwise a missing header, a header that does not
split into a bearer pair, a non-bearer scheme, or a mismatched key is
answered with the structured invalid-api-key body and status 401. -/
theorem c9_models_auth (apiKey : String) (agents : List (String × AgentConfig)) :
    (validate_api_key apiKey none = true ↔ (apiKey = "" ∨ pyLower apiKey = "none"))
    ∧ ((apiKey = "" ∨ pyLower apiKey = "none") →
        ∀ hdr, list_models apiKey hdr agents = ModelsResult.ok (modelsPayload agents))
    ∧ (apiKey ≠ "" → pyLower apiKey ≠ "none" →
        (list_models apiKey none agents = ModelsResult.unauthorized invalidApiKeyError 401)
        ∧ (∀ h, (∀ p0 p1, pySplitWs h ≠ [p0, p1]) →
            list_models apiKey (some h) agents =
              ModelsResult.unauthorized invalidApiKeyError 401)
        ∧ (∀ h p0 p1, pySplitWs h = [p0, p1] → pyLower p0 ≠ "bearer" →
            list_models apiKey (some h) agents =
              ModelsResult.unauthorized invalidApiKeyError 401)
        ∧ (∀ h p0 p1, pySplitWs h = [p0, p1] → p1 ≠ apiKey →
            list_models apiKey (some h) agents =
              ModelsResult.unauthorized invalidApiKeyError 401)) := by
  refine ⟨?_, ?_, ?_⟩
  · by_cases hs : apiKey = "" ∨ pyLower apiKey = "none"
    · simp [validate_api_key, hs]
    · simp [validate_api_key, hs]
  · intro hs hdr
    simp [list_models, validate_api_key, hs]
  · intro h1 h2
    have hskip : ¬(apiKey = "" ∨ pyLower apiKey = "none") := by
      rintro (h | h)
      · exact h1 h
      · exact h2 h
    refine ⟨?_, ?_, ?_, ?_⟩
    · simp [list_models, validate_api_key, hskip]
    · intro h hno
      simp [list_models, validate_false_of_not_pair apiKey h hskip hno]
    · intro h p0 p1 hsp hb
      simp [list_models, validate_false_of_bad_pair apiKey h p0 p1 hskip hsp (Or.inl hb)]
    · intro h p0 p1 hsp hk
      simp [list_models, validate_false_of_bad_pair apiKey h p0 p1 hskip hsp (Or.inr hk)]

/-- Witness for c9_models_auth: a real key rejects a missing header and a
mismatched bearer key; a key equal to NONE skips the check. -/
theorem c9_models_auth_witness :
    list_models "secret" none [] = ModelsResult.unauthorized invalidApiKeyError 401 ∧
      list_models "secret" (some "Bearer wrong") [] =
        ModelsResult.unauthorized invalidApiKeyError 401 ∧
      list_models "NONE" (some "anything") [] = ModelsResult.ok (modelsPayload []) :=
  ⟨((c9_models_auth "secret" []).2.2 (by decide) (by decide)).1,
    ((c9_models_auth "secret" []).2.2 (by decide) (by decide)).2.2.2 "Bearer wrong"
      "Bearer" "wrong" (by decide) (by decide),
    (c9_models_auth "NONE" []).2.1 (Or.inr (by decide)) (some "anything")⟩

/-- Counterexample to claim C9 as stated: the key None is neither unset nor
the literal none, yet the bearer check is skipped entirely. -/
theorem c9_counterexample :
    validate_api_key "None" none = true ∧ ("None" : String) ≠ "none" ∧
      ("None" : String) ≠ "" ∧
      list_models "None" none [] = ModelsResult.ok (modelsPayload []) := by
  decide

end BedrockProxy
